import Mathlib

/-!
Shallow embedding of receiver/k8sclusterreceiver/internal/collection/collector.go
(package collection) from opentelemetry-collector-contrib.

The file collector.go is the only source under verification. Its collaborators
(the metrics store, the metadata store, the per-kind derivation functions and
the opencensus translator) live outside the provided sources, so the stores are
modelled from the design specification and the derivation functions are kept
abstract: every theorem quantifies over them.
-/

/-- One resource-metrics block inside a metrics payload. The field dataPoints
is the number of data points the block contributes to DataPointCount; the
field content stands for the rest of its (externally produced) content. -/
structure RMBlock where
  dataPoints : Nat
  content : Nat
  deriving DecidableEq, Repr

/-- Model of a pmetric.Metrics value: its list of resource-metrics blocks. -/
structure PMetrics where
  resourceMetrics : List RMBlock
  deriving DecidableEq, Repr

/-- Model of pmetric.Metrics.DataPointCount: the total number of data points
over all resource-metrics blocks. -/
def PMetrics.dataPointCount (m : PMetrics) : Nat :=
  (m.resourceMetrics.map RMBlock.dataPoints).sum

/-- Model of pmetric.NewMetrics: a metrics value with no resource metrics. -/
def PMetrics.new : PMetrics := ⟨[]⟩

/-- Model of an agentmetricspb.ExportMetricsServiceRequest value, opaque to
this core (its node, resource and metrics fields are only ever handed to the
external opencensus translator). -/
structure OCRequest where
  content : Nat
  deriving DecidableEq, Repr

/-- Translation of ocsToMetrics from collector.go, parameterised by the
external translator internaldata.OCToMetrics: starting from
pmetric.NewMetrics, each translated request has its resource metrics moved
and appended onto the accumulator, in order. -/
def ocsToMetrics (ocToMetrics : OCRequest → PMetrics) (ocs : List OCRequest) : PMetrics :=
  ocs.foldl (fun md ocm => ⟨md.resourceMetrics ++ (ocToMetrics ocm).resourceMetrics⟩) PMetrics.new

/-- The identity-relevant part of a kubernetes object. The uid field models
the UID obtained through meta.Accessor: none models an object shape from
which no usable identity can be resolved. The content field stands for the
remaining object data, which only the external derivation functions read. -/
structure KResource where
  uid : Option String
  content : Nat
  deriving DecidableEq, Repr

/-- Tagged union of the runtime.Object dynamic types that the type switches
in collector.go distinguish, together with a case for a runtime.Object of any
other dynamic type. The constructor ns stands for a corev1.Namespace pointer,
cronJob for batchv1.CronJob, cronJobBeta for batchv1beta1.CronJob. -/
inductive KObj where
  | pod (r : KResource)
  | node (r : KResource)
  | ns (r : KResource)
  | replicationController (r : KResource)
  | resourceQuota (r : KResource)
  | deployment (r : KResource)
  | replicaSet (r : KResource)
  | daemonSet (r : KResource)
  | statefulSet (r : KResource)
  | job (r : KResource)
  | cronJob (r : KResource)
  | cronJobBeta (r : KResource)
  | horizontalPodAutoscaler (r : KResource)
  | clusterResourceQuota (r : KResource)
  | other (typeName : String) (r : KResource)
  deriving DecidableEq, Repr

/-- A Go interface value as received by the public entry points, which take
an unconstrained interface argument: either a value implementing
runtime.Object, or a non-nil value of some other type, or the nil interface
value. -/
inductive GoVal where
  | obj (o : KObj)
  | nonObject (typeName : String) (content : Nat)
  | nilVal
  deriving DecidableEq, Repr

/-- The underlying resource data of a tagged object. -/
def KObj.res : KObj → KResource
  | .pod r => r
  | .node r => r
  | .ns r => r
  | .replicationController r => r
  | .resourceQuota r => r
  | .deployment r => r
  | .replicaSet r => r
  | .daemonSet r => r
  | .statefulSet r => r
  | .job r => r
  | .cronJob r => r
  | .cronJobBeta r => r
  | .horizontalPodAutoscaler r => r
  | .clusterResourceQuota r => r
  | .other _ r => r

/-- The string reflect.TypeOf yields for each dynamic type of the union, used
by the log statements in collector.go. -/
def KObj.typeName : KObj → String
  | .pod _ => "*v1.Pod"
  | .node _ => "*v1.Node"
  | .ns _ => "*v1.Namespace"
  | .replicationController _ => "*v1.ReplicationController"
  | .resourceQuota _ => "*v1.ResourceQuota"
  | .deployment _ => "*v1.Deployment"
  | .replicaSet _ => "*v1.ReplicaSet"
  | .daemonSet _ => "*v1.DaemonSet"
  | .statefulSet _ => "*v1.StatefulSet"
  | .job _ => "*v1.Job"
  | .cronJob _ => "*v1.CronJob"
  | .cronJobBeta _ => "*v1beta1.CronJob"
  | .horizontalPodAutoscaler _ => "*v2beta2.HorizontalPodAutoscaler"
  | .clusterResourceQuota _ => "*v1.ClusterResourceQuota"
  | .other n _ => n

/-- Modelled from the spec: the error taxonomy of the store write path, whose
source file is not among the provided sources. IdentityResolutionError is the
failure of mapping the supplied object to a stable identity. -/
inductive StoreErr where
  | identityResolutionError
  deriving DecidableEq, Repr

/-- A Go runtime panic raised by the failed single-value type assertion on
the interface argument of the public write entry points; the assertion also
panics on the nil interface value. -/
inductive GoPanic where
  | interfaceConversion
  deriving DecidableEq, Repr

/-- One structured log record emitted through the zap logger: the message,
the reflected type string of the offending object and the error. -/
structure LogEntry where
  msg : String
  objType : String
  err : StoreErr
  deriving DecidableEq, Repr

/-- Modelled from the spec: identity resolution of the metrics store, whose
source file is not among the provided sources. The identity is the UID
carried by the object; an object carrying no usable UID fails with
IdentityResolutionError. -/
def resolveIdentity (o : KObj) : Except StoreErr String :=
  match o.res.uid with
  | some u => Except.ok u
  | none => Except.error StoreErr.identityResolutionError

/-- Read of a Go map rendered as an association list: the value stored under
the key, if any. -/
def lookupKey {β : Type} (u : String) : List (String × β) → Option β
  | [] => none
  | p :: rest => if p.1 = u then some p.2 else lookupKey u rest

/-- Write of a Go map rendered as an association list: replace the entry
under the key, or append a fresh one. -/
def upsert {β : Type} (cache : List (String × β)) (u : String) (v : β) : List (String × β) :=
  match cache with
  | [] => [(u, v)]
  | p :: rest => if p.1 = u then (u, v) :: rest else p :: upsert rest u v

/-- Deletion of a Go map key rendered on an association list. -/
def removeKey {β : Type} (u : String) : List (String × β) → List (String × β)
  | [] => []
  | p :: rest => if p.1 = u then removeKey u rest else p :: removeKey u rest

/-- Modelled from the spec: the metrics store, whose source file is not among
the provided sources; a mapping from resource identity to the most recently
stored metrics for that resource, rendered as an association list. -/
structure metricsStore where
  metricsCache : List (String × PMetrics)
  deriving DecidableEq, Repr

/-- Modelled from the spec: the update operation of the metrics store. The
identity must be resolvable, else IdentityResolutionError; a non-empty record
set replaces the stored entry wholesale; an empty record set is a no-op and
not an error. -/
def metricsStore.update (ms : metricsStore) (o : KObj) (md : PMetrics) :
    Except StoreErr metricsStore :=
  match resolveIdentity o with
  | Except.error e => Except.error e
  | Except.ok u =>
      if md.dataPointCount = 0 then Except.ok ms
      else Except.ok ⟨upsert ms.metricsCache u md⟩

/-- Modelled from the spec: the remove operation of the metrics store. The
identity must be resolvable, else IdentityResolutionError; the entry is
deleted if present, and deleting an absent entry is a no-op, not an error. -/
def metricsStore.remove (ms : metricsStore) (o : KObj) : Except StoreErr metricsStore :=
  match resolveIdentity o with
  | Except.error e => Except.error e
  | Except.ok u => Except.ok ⟨removeKey u ms.metricsCache⟩

/-- Modelled from the spec: the result of the snapshot read of the metrics
store, namely all currently stored entries stamped with the supplied
collection timestamp. -/
structure Snapshot where
  timestamp : Nat
  entries : List (String × PMetrics)
  deriving DecidableEq, Repr

/-- Modelled from the spec: the snapshot read of the metrics store, whose
source file is not among the provided sources: it returns every stored entry,
stamped with the supplied collection time, and changes nothing. -/
def metricsStore.getMetricData (ms : metricsStore) (currentTime : Nat) : Snapshot :=
  ⟨currentTime, ms.metricsCache⟩

/-- Modelled from the spec: the metadata store, whose source file is not
among the provided sources; per-kind references to externally owned watch
caches, keyed by a group-version-kind string. -/
structure metadataStore where
  stores : List (String × Nat)
  deriving DecidableEq, Repr

/-- Modelled from the spec: installing a per-kind watch-cache reference in
the metadata store; re-registering a kind replaces the reference. -/
def metadataStore.setupStore (m : metadataStore) (gvk : String) (store : Nat) : metadataStore :=
  ⟨upsert m.stores gvk store⟩

/-- Model of a metadata.ResourceID value. -/
abbrev ResourceID := String

/-- Model of a KubernetesMetadata value: a bag of properties and
relationships produced by the external metadata derivation functions and
opaque to collector.go. -/
structure KubernetesMetadata where
  content : Nat
  deriving DecidableEq, Repr

/-- A Go map value: either the nil map or an allocated map with its entries. -/
inductive GoMap (α β : Type) where
  | nilMap
  | alloc (entries : List (α × β))
  deriving DecidableEq, Repr

/-- The external per-kind metric derivation functions and the external
opencensus translator, collaborators of collector.go whose field-mapping
logic is outside this core; theorems quantify over a value of this
structure. The zap logger argument some derivations take is dropped: the
design contracts them to be pure functions of their object. -/
structure DerivFuns where
  getMetricsForPod : KResource → List OCRequest
  getMetricsForNode : KResource → List String → List String → List OCRequest
  getMetricsForNamespace : KResource → List OCRequest
  getMetricsForReplicationController : KResource → List OCRequest
  getMetricsForResourceQuota : KResource → List OCRequest
  getMetricsForDeployment : KResource → List OCRequest
  getMetricsForReplicaSet : KResource → List OCRequest
  getMetricsForDaemonSet : KResource → List OCRequest
  getMetricsForStatefulSet : KResource → List OCRequest
  getMetricsForJob : KResource → List OCRequest
  getMetricsForCronJob : KResource → List OCRequest
  getMetricsForCronJobBeta : KResource → List OCRequest
  getMetricsForHPA : KResource → List OCRequest
  getMetricsForClusterResourceQuota : KResource → List OCRequest
  ocToMetrics : OCRequest → PMetrics

/-- The external per-kind metadata derivation functions, collaborators of
collector.go; the pod derivation also receives the metadata store for
cross-referencing. Each returns a Go map, so the nil map is representable. -/
structure MetaDerivFuns where
  getMetadataForPod : KResource → metadataStore → GoMap ResourceID KubernetesMetadata
  getMetadataForNode : KResource → GoMap ResourceID KubernetesMetadata
  getMetadataForReplicationController : KResource → GoMap ResourceID KubernetesMetadata
  getMetadataForDeployment : KResource → GoMap ResourceID KubernetesMetadata
  getMetadataForReplicaSet : KResource → GoMap ResourceID KubernetesMetadata
  getMetadataForDaemonSet : KResource → GoMap ResourceID KubernetesMetadata
  getMetadataForStatefulSet : KResource → GoMap ResourceID KubernetesMetadata
  getMetadataForJob : KResource → GoMap ResourceID KubernetesMetadata
  getMetadataForCronJob : KResource → GoMap ResourceID KubernetesMetadata
  getMetadataForCronJobBeta : KResource → GoMap ResourceID KubernetesMetadata
  getMetadataForHPA : KResource → GoMap ResourceID KubernetesMetadata

/-- Translation of the DataCollector structure from collector.go. The zap
logger field is modelled by the list of log entries emitted so far. -/
structure DataCollector where
  logs : List LogEntry
  store : metricsStore
  mdStore : metadataStore
  nodeConditionsToReport : List String
  allocatableTypesToReport : List String
  deriving DecidableEq, Repr

/-- The collector with its log list replaced. -/
def DataCollector.withLogs (dc : DataCollector) (l : List LogEntry) : DataCollector :=
  ⟨l, dc.store, dc.mdStore, dc.nodeConditionsToReport, dc.allocatableTypesToReport⟩

/-- The collector with its metrics store replaced. -/
def DataCollector.withStore (dc : DataCollector) (ms : metricsStore) : DataCollector :=
  ⟨dc.logs, ms, dc.mdStore, dc.nodeConditionsToReport, dc.allocatableTypesToReport⟩

/-- Translation of NewDataCollector from collector.go: a collector over a
fresh metrics store with an empty metrics cache and a fresh metadata store,
with nothing logged yet. -/
def NewDataCollector (nodeConditionsToReport allocatableTypesToReport : List String) :
    DataCollector :=
  ⟨[], ⟨[]⟩, ⟨[]⟩, nodeConditionsToReport, allocatableTypesToReport⟩

/-- Translation of SetupMetadataStore from collector.go: passthrough to the
metadata store. -/
def DataCollector.SetupMetadataStore (dc : DataCollector) (gvk : String) (store : Nat) :
    DataCollector :=
  ⟨dc.logs, dc.store, dc.mdStore.setupStore gvk store, dc.nodeConditionsToReport,
    dc.allocatableTypesToReport⟩

/-- The single-value type assertion on the interface argument of the public
write entry points: it yields the object when the dynamic type implements
runtime.Object and panics otherwise, in particular on the nil interface
value and on any non-object value. -/
def asRuntimeObject : GoVal → Except GoPanic KObj
  | GoVal.obj o => Except.ok o
  | GoVal.nonObject _ _ => Except.error GoPanic.interfaceConversion
  | GoVal.nilVal => Except.error GoPanic.interfaceConversion

/-- Translation of RemoveFromMetricsStore from collector.go: assert the
argument to runtime.Object, call remove on the metrics store, and on error
log the message, the reflected type of the object and the error, returning
normally; the panic of a failed assertion is surfaced as the error case. -/
def DataCollector.RemoveFromMetricsStore (dc : DataCollector) (obj : GoVal) :
    Except GoPanic DataCollector :=
  match asRuntimeObject obj with
  | Except.error p => Except.error p
  | Except.ok o =>
      match dc.store.remove o with
      | Except.error e =>
          Except.ok (dc.withLogs
            (dc.logs ++ [⟨"failed to remove from metric cache", o.typeName, e⟩]))
      | Except.ok ms => Except.ok (dc.withStore ms)

/-- Translation of UpdateMetricsStore from collector.go: assert the argument
to runtime.Object, call update on the metrics store, and on error log the
message, the reflected type of the object and the error, returning normally;
the panic of a failed assertion is surfaced as the error case. -/
def DataCollector.UpdateMetricsStore (dc : DataCollector) (obj : GoVal) (md : PMetrics) :
    Except GoPanic DataCollector :=
  match asRuntimeObject obj with
  | Except.error p => Except.error p
  | Except.ok o =>
      match dc.store.update o md with
      | Except.error e =>
          Except.ok (dc.withLogs
            (dc.logs ++ [⟨"failed to update metric cache", o.typeName, e⟩]))
      | Except.ok ms => Except.ok (dc.withStore ms)

/-- Translation of CollectMetricData from collector.go: the snapshot read of
the metrics store at the supplied time; the collector state after the call is
returned alongside to state frame properties. -/
def DataCollector.CollectMetricData (dc : DataCollector) (currentTime : Nat) :
    DataCollector × Snapshot :=
  (dc, dc.store.getMetricData currentTime)

/-- The body of the type switch of SyncMetrics from collector.go: for a
recognised dynamic type, the metrics produced by the matching per-kind
derivation function translated through ocsToMetrics (the node derivation
also receives the two report lists of the collector); none for the default
case, in which SyncMetrics returns at once. -/
def deriveMetrics (df : DerivFuns) (dc : DataCollector) : GoVal → Option PMetrics
  | GoVal.obj (KObj.pod r) =>
      some (ocsToMetrics df.ocToMetrics (df.getMetricsForPod r))
  | GoVal.obj (KObj.node r) =>
      some (ocsToMetrics df.ocToMetrics
        (df.getMetricsForNode r dc.nodeConditionsToReport dc.allocatableTypesToReport))
  | GoVal.obj (KObj.ns r) =>
      some (ocsToMetrics df.ocToMetrics (df.getMetricsForNamespace r))
  | GoVal.obj (KObj.replicationController r) =>
      some (ocsToMetrics df.ocToMetrics (df.getMetricsForReplicationController r))
  | GoVal.obj (KObj.resourceQuota r) =>
      some (ocsToMetrics df.ocToMetrics (df.getMetricsForResourceQuota r))
  | GoVal.obj (KObj.deployment r) =>
      some (ocsToMetrics df.ocToMetrics (df.getMetricsForDeployment r))
  | GoVal.obj (KObj.replicaSet r) =>
      some (ocsToMetrics df.ocToMetrics (df.getMetricsForReplicaSet r))
  | GoVal.obj (KObj.daemonSet r) =>
      some (ocsToMetrics df.ocToMetrics (df.getMetricsForDaemonSet r))
  | GoVal.obj (KObj.statefulSet r) =>
      some (ocsToMetrics df.ocToMetrics (df.getMetricsForStatefulSet r))
  | GoVal.obj (KObj.job r) =>
      some (ocsToMetrics df.ocToMetrics (df.getMetricsForJob r))
  | GoVal.obj (KObj.cronJob r) =>
      some (ocsToMetrics df.ocToMetrics (df.getMetricsForCronJob r))
  | GoVal.obj (KObj.cronJobBeta r) =>
      some (ocsToMetrics df.ocToMetrics (df.getMetricsForCronJobBeta r))
  | GoVal.obj (KObj.horizontalPodAutoscaler r) =>
      some (ocsToMetrics df.ocToMetrics (df.getMetricsForHPA r))
  | GoVal.obj (KObj.clusterResourceQuota r) =>
      some (ocsToMetrics df.ocToMetrics (df.getMetricsForClusterResourceQuota r))
  | _ => none

/-- Translation of SyncMetrics from collector.go: dispatch on the dynamic
type of the argument; an unrecognised type returns at once; a derived result
with zero data points returns at once; otherwise the result is handed to
UpdateMetricsStore together with the original argument. -/
def DataCollector.SyncMetrics (dc : DataCollector) (df : DerivFuns) (obj : GoVal) :
    Except GoPanic DataCollector :=
  match deriveMetrics df dc obj with
  | none => Except.ok dc
  | some md =>
      if md.dataPointCount = 0 then Except.ok dc
      else dc.UpdateMetricsStore obj md

/-- Translation of SyncMetadata from collector.go: the result map is
initialised to an allocated empty map and reassigned by the matching
per-kind metadata derivation for recognised dynamic types (the pod
derivation also receives the metadata store); the collector state after the
call is returned alongside to state frame properties. -/
def DataCollector.SyncMetadata (dc : DataCollector) (mf : MetaDerivFuns) (obj : GoVal) :
    DataCollector × GoMap ResourceID KubernetesMetadata :=
  match obj with
  | GoVal.obj (KObj.pod r) => (dc, mf.getMetadataForPod r dc.mdStore)
  | GoVal.obj (KObj.node r) => (dc, mf.getMetadataForNode r)
  | GoVal.obj (KObj.replicationController r) => (dc, mf.getMetadataForReplicationController r)
  | GoVal.obj (KObj.deployment r) => (dc, mf.getMetadataForDeployment r)
  | GoVal.obj (KObj.replicaSet r) => (dc, mf.getMetadataForReplicaSet r)
  | GoVal.obj (KObj.daemonSet r) => (dc, mf.getMetadataForDaemonSet r)
  | GoVal.obj (KObj.statefulSet r) => (dc, mf.getMetadataForStatefulSet r)
  | GoVal.obj (KObj.job r) => (dc, mf.getMetadataForJob r)
  | GoVal.obj (KObj.cronJob r) => (dc, mf.getMetadataForCronJob r)
  | GoVal.obj (KObj.cronJobBeta r) => (dc, mf.getMetadataForCronJobBeta r)
  | GoVal.obj (KObj.horizontalPodAutoscaler r) => (dc, mf.getMetadataForHPA r)
  | _ => (dc, GoMap.alloc [])

/-- The dynamic types carrying a case in the type switch of SyncMetrics. -/
def isRecognizedMetricsKind : GoVal → Bool
  | GoVal.obj (KObj.pod _) => true
  | GoVal.obj (KObj.node _) => true
  | GoVal.obj (KObj.ns _) => true
  | GoVal.obj (KObj.replicationController _) => true
  | GoVal.obj (KObj.resourceQuota _) => true
  | GoVal.obj (KObj.deployment _) => true
  | GoVal.obj (KObj.replicaSet _) => true
  | GoVal.obj (KObj.daemonSet _) => true
  | GoVal.obj (KObj.statefulSet _) => true
  | GoVal.obj (KObj.job _) => true
  | GoVal.obj (KObj.cronJob _) => true
  | GoVal.obj (KObj.cronJobBeta _) => true
  | GoVal.obj (KObj.horizontalPodAutoscaler _) => true
  | GoVal.obj (KObj.clusterResourceQuota _) => true
  | _ => false

/-- The dynamic types carrying a case in the type switch of SyncMetadata. -/
def isRecognizedMetadataKind : GoVal → Bool
  | GoVal.obj (KObj.pod _) => true
  | GoVal.obj (KObj.node _) => true
  | GoVal.obj (KObj.replicationController _) => true
  | GoVal.obj (KObj.deployment _) => true
  | GoVal.obj (KObj.replicaSet _) => true
  | GoVal.obj (KObj.daemonSet _) => true
  | GoVal.obj (KObj.statefulSet _) => true
  | GoVal.obj (KObj.job _) => true
  | GoVal.obj (KObj.cronJob _) => true
  | GoVal.obj (KObj.cronJobBeta _) => true
  | GoVal.obj (KObj.horizontalPodAutoscaler _) => true
  | _ => false

/-- Whether the value is a Namespace object. -/
def isNamespaceKind : GoVal → Bool
  | GoVal.obj (KObj.ns _) => true
  | _ => false

/-- Whether the value is a ResourceQuota object. -/
def isResourceQuotaKind : GoVal → Bool
  | GoVal.obj (KObj.resourceQuota _) => true
  | _ => false

/-- Whether the value is a ClusterResourceQuota object. -/
def isClusterResourceQuotaKind : GoVal → Bool
  | GoVal.obj (KObj.clusterResourceQuota _) => true
  | _ => false

/-- A lookup that succeeds still succeeds after a replace-or-append write. -/
lemma lookupKey_isSome_upsert {β : Type} (c : List (String × β)) (v u : String) (w : β)
    (h : (lookupKey u c).isSome) : (lookupKey u (upsert c v w)).isSome := by
  induction c with
  | nil => simp [lookupKey] at h
  | cons p rest ih =>
      obtain ⟨k, x⟩ := p
      simp only [upsert]
      by_cases hk : k = v
      · rw [if_pos hk]
        by_cases hu : v = u
        · simp [lookupKey, hu]
        · simp only [lookupKey, if_neg hu]
          have hku : ¬k = u := hk ▸ hu
          simpa [lookupKey, if_neg hku] using h
      · rw [if_neg hk]
        by_cases hu : k = u
        · simp [lookupKey, hu]
        · simp only [lookupKey, if_neg hu]
          simp only [lookupKey, if_neg hu] at h
          exact ih h

/-- After deleting a key, looking it up fails. -/
lemma lookupKey_removeKey {β : Type} (c : List (String × β)) (u : String) :
    lookupKey u (removeKey u c) = none := by
  induction c with
  | nil => simp [removeKey, lookupKey]
  | cons p rest ih =>
      obtain ⟨k, x⟩ := p
      by_cases hk : k = u
      · simpa [removeKey, hk] using ih
      · simpa [removeKey, lookupKey, hk] using ih

/-- Deleting an absent key changes nothing. -/
lemma removeKey_absent {β : Type} (c : List (String × β)) (u : String)
    (h : lookupKey u c = none) : removeKey u c = c := by
  induction c with
  | nil => simp [removeKey]
  | cons p rest ih =>
      obtain ⟨k, x⟩ := p
      by_cases hk : k = u
      · simp [lookupKey, hk] at h
      · simp [lookupKey, hk] at h
        simp [removeKey, hk, ih h]

/-- A per-kind metric derivation producing no records. -/
def noRecords (r : KResource) : List OCRequest := []

/-- The node metric derivation producing no records. -/
def noNodeRecords (r : KResource) (conds types : List String) : List OCRequest := []

/-- A family of metric derivation functions that produce no records, for
concrete instantiations. -/
def dfEmpty : DerivFuns :=
  ⟨noRecords, noNodeRecords, noRecords, noRecords, noRecords,
   noRecords, noRecords, noRecords, noRecords, noRecords,
   noRecords, noRecords, noRecords, noRecords, fun _ => PMetrics.new⟩

/-- A one-entry marker metadata map. -/
def markMap : GoMap ResourceID KubernetesMetadata := GoMap.alloc [("marker", ⟨1⟩)]

/-- A per-kind metadata derivation returning the marker map. -/
def markOf (r : KResource) : GoMap ResourceID KubernetesMetadata := markMap

/-- A family of metadata derivation functions that return a one-entry marker
map, for concrete instantiations. -/
def mfMark : MetaDerivFuns :=
  ⟨fun _ _ => markMap, markOf, markOf, markOf, markOf, markOf,
   markOf, markOf, markOf, markOf, markOf⟩

/-- A per-kind metadata derivation returning the allocated empty map. -/
def emptyAllocOf (r : KResource) : GoMap ResourceID KubernetesMetadata := GoMap.alloc []

/-- A family of metadata derivation functions that return the allocated empty
map, for concrete instantiations. -/
def mfAlloc : MetaDerivFuns :=
  ⟨fun _ _ => GoMap.alloc [], emptyAllocOf, emptyAllocOf, emptyAllocOf, emptyAllocOf,
   emptyAllocOf, emptyAllocOf, emptyAllocOf, emptyAllocOf, emptyAllocOf, emptyAllocOf⟩

/-- A metrics value with a single data point. -/
def mdOne : PMetrics := ⟨[⟨1, 0⟩]⟩

/-- A collector whose metrics cache holds one non-empty entry under the
identity u1. -/
def dcOne : DataCollector := ⟨[], ⟨[("u1", mdOne)]⟩, ⟨[]⟩, [], []⟩

/-- A pod object with identity u1. -/
def podU1 : KObj := KObj.pod ⟨some "u1", 0⟩

/-- A pod object carrying no resolvable identity. -/
def podNoUID : KObj := KObj.pod ⟨none, 0⟩

/-- On a value of unrecognised dynamic type the metrics type switch takes the
default case. -/
lemma deriveMetrics_eq_none (df : DerivFuns) (dc : DataCollector) (obj : GoVal)
    (h : isRecognizedMetricsKind obj = false) : deriveMetrics df dc obj = none := by
  cases obj with
  | obj o => cases o <;> first | rfl | simp [isRecognizedMetricsKind] at h
  | nonObject n c => rfl
  | nilVal => rfl

/-- On a value of unrecognised dynamic type the metadata type switch takes
the default case, yielding the initial allocated empty map and leaving the
collector unchanged. -/
lemma syncMetadata_default (mf : MetaDerivFuns) (dc : DataCollector) (obj : GoVal)
    (h : isRecognizedMetadataKind obj = false) :
    dc.SyncMetadata mf obj = (dc, GoMap.alloc []) := by
  cases obj with
  | obj o => cases o <;> first | rfl | simp [isRecognizedMetadataKind] at h
  | nonObject n c => rfl
  | nilVal => rfl

/-- UpdateMetricsStore on a runtime object returns normally, logging on a
store error. -/
lemma updateMetricsStore_obj_isOk (dc : DataCollector) (o : KObj) (md : PMetrics) :
    ∃ dc2, dc.UpdateMetricsStore (GoVal.obj o) md = Except.ok dc2 := by
  simp only [DataCollector.UpdateMetricsStore, asRuntimeObject]
  cases hup : dc.store.update o md with
  | error e => exact ⟨_, rfl⟩
  | ok ms => exact ⟨_, rfl⟩

/-- A successful UpdateMetricsStore call never drops a stored identity. -/
lemma updateMetricsStore_preserves_keys (dc : DataCollector) (obj : GoVal) (md : PMetrics)
    (dc2 : DataCollector) (h : dc.UpdateMetricsStore obj md = Except.ok dc2) (u : String)
    (hu : (lookupKey u dc.store.metricsCache).isSome) :
    (lookupKey u dc2.store.metricsCache).isSome := by
  cases obj with
  | nonObject n c => simp [DataCollector.UpdateMetricsStore, asRuntimeObject] at h
  | nilVal => simp [DataCollector.UpdateMetricsStore, asRuntimeObject] at h
  | obj o =>
      simp only [DataCollector.UpdateMetricsStore, asRuntimeObject] at h
      cases hup : dc.store.update o md with
      | error e =>
          rw [hup] at h
          simp only [Except.ok.injEq] at h
          subst h
          exact hu
      | ok ms =>
          rw [hup] at h
          simp only [Except.ok.injEq] at h
          subst h
          unfold metricsStore.update at hup
          cases hr : resolveIdentity o with
          | error e => simp only [hr] at hup; exact absurd hup (by simp)
          | ok u2 =>
              simp only [hr] at hup
              by_cases hz : md.dataPointCount = 0
              · rw [if_pos hz] at hup
                simp only [Except.ok.injEq] at hup
                subst hup
                exact hu
              · rw [if_neg hz] at hup
                simp only [Except.ok.injEq] at hup
                subst hup
                exact lookupKey_isSome_upsert _ _ _ _ hu

/-- The tail of SyncMetrics after derivation: a result with zero data points
is dropped, a non-empty one becomes the candidate store update. -/
def syncStep (dc : DataCollector) (obj : GoVal) (md : PMetrics) :
    Except GoPanic DataCollector :=
  if md.dataPointCount = 0 then Except.ok dc else dc.UpdateMetricsStore obj md

/-- C1: when the per-kind derivation for an object yields a result with zero
data points, SyncMetrics performs no write at all: the collector, and in
particular its metrics store with any previously stored non-empty entry and
its log, is returned unchanged; moreover a SyncMetrics call that returns
never removes a stored entry, whatever the derivation produced, so an entry
disappears only through the explicit removal entry point. -/
theorem C1_syncMetrics_empty_update_is_noop
    (df : DerivFuns) (dc : DataCollector) (obj : GoVal) :
    (∀ md, deriveMetrics df dc obj = some md → md.dataPointCount = 0 →
        dc.SyncMetrics df obj = Except.ok dc)
    ∧ (∀ dc2, dc.SyncMetrics df obj = Except.ok dc2 →
        ∀ u, (lookupKey u dc.store.metricsCache).isSome →
          (lookupKey u dc2.store.metricsCache).isSome) := by
  constructor
  · intro md hmd hz
    simp [DataCollector.SyncMetrics, hmd, hz]
  · intro dc2 hsync u hu
    unfold DataCollector.SyncMetrics at hsync
    cases hd : deriveMetrics df dc obj with
    | none =>
        simp only [hd, Except.ok.injEq] at hsync
        subst hsync
        exact hu
    | some md =>
        simp only [hd] at hsync
        by_cases hz : md.dataPointCount = 0
        · rw [if_pos hz] at hsync
          simp only [Except.ok.injEq] at hsync
          subst hsync
          exact hu
        · rw [if_neg hz] at hsync
          exact updateMetricsStore_preserves_keys dc obj md dc2 hsync u hu

/-- Concrete instance of C1: an empty derivation for a pod whose identity
already holds a non-empty cached entry leaves the collector untouched. -/
theorem C1_syncMetrics_empty_update_is_noop_witness :
    (lookupKey "u1" dcOne.store.metricsCache).isSome ∧
    dcOne.SyncMetrics dfEmpty (GoVal.obj podU1) = Except.ok dcOne := by
  refine ⟨by decide, ?_⟩
  exact (C1_syncMetrics_empty_update_is_noop dfEmpty dcOne (GoVal.obj podU1)).1
    PMetrics.new rfl rfl

/-- C2: SyncMetrics on a value whose dynamic type carries no case in its
type switch, including the nil interface value, returns the collector
unchanged, with the same result for every family of derivation functions,
so no derivation function is invoked, nothing is written or logged and no
error or panic is raised. -/
theorem C2_syncMetrics_unrecognized_silent_noop
    (dc : DataCollector) (obj : GoVal) (h : isRecognizedMetricsKind obj = false)
    (df : DerivFuns) : dc.SyncMetrics df obj = Except.ok dc := by
  unfold DataCollector.SyncMetrics
  rw [deriveMetrics_eq_none df dc obj h]

/-- Concrete instance of C2 at the nil interface value. -/
theorem C2_syncMetrics_unrecognized_silent_noop_witness :
    dcOne.SyncMetrics dfEmpty GoVal.nilVal = Except.ok dcOne :=
  C2_syncMetrics_unrecognized_silent_noop dcOne GoVal.nilVal rfl dfEmpty

/-- C3: a store failure on the write path is absorbed at the façade: when
the store update or remove returns an error for a runtime object, the
corresponding entry point returns normally, having only appended one log
entry carrying the message, the reflected kind of the object and the error;
and SyncMetrics on a runtime object always returns normally, so one failing
event never prevents processing of later events. -/
theorem C3_writePath_absorbs_store_errors
    (dc : DataCollector) (o : KObj) (md : PMetrics) (e : StoreErr) :
    (dc.store.update o md = Except.error e →
        dc.UpdateMetricsStore (GoVal.obj o) md = Except.ok
          (dc.withLogs (dc.logs ++ [⟨"failed to update metric cache", o.typeName, e⟩])))
    ∧ (dc.store.remove o = Except.error e →
        dc.RemoveFromMetricsStore (GoVal.obj o) = Except.ok
          (dc.withLogs (dc.logs ++ [⟨"failed to remove from metric cache", o.typeName, e⟩])))
    ∧ (∀ df, ∃ dc2, dc.SyncMetrics df (GoVal.obj o) = Except.ok dc2) := by
  refine ⟨?_, ?_, ?_⟩
  · intro h
    simp only [DataCollector.UpdateMetricsStore, asRuntimeObject, h]
  · intro h
    simp only [DataCollector.RemoveFromMetricsStore, asRuntimeObject, h]
  · intro df
    unfold DataCollector.SyncMetrics
    cases hd : deriveMetrics df dc (GoVal.obj o) with
    | none => simp only [hd]; exact ⟨dc, rfl⟩
    | some md2 =>
        simp only [hd]
        by_cases hz : md2.dataPointCount = 0
        · rw [if_pos hz]; exact ⟨dc, rfl⟩
        · rw [if_neg hz]; exact updateMetricsStore_obj_isOk dc o md2

/-- Concrete instance of C3: for a pod without resolvable identity, update
and removal fail in the store, the façade logs the pod kind and returns
normally, and SyncMetrics returns normally. -/
theorem C3_writePath_absorbs_store_errors_witness :
    dcOne.store.update podNoUID mdOne = Except.error StoreErr.identityResolutionError ∧
    dcOne.UpdateMetricsStore (GoVal.obj podNoUID) mdOne = Except.ok
      (dcOne.withLogs (dcOne.logs ++ [⟨"failed to update metric cache", podNoUID.typeName,
        StoreErr.identityResolutionError⟩])) ∧
    dcOne.store.remove podNoUID = Except.error StoreErr.identityResolutionError ∧
    dcOne.RemoveFromMetricsStore (GoVal.obj podNoUID) = Except.ok
      (dcOne.withLogs (dcOne.logs ++ [⟨"failed to remove from metric cache", podNoUID.typeName,
        StoreErr.identityResolutionError⟩])) ∧
    (∃ dc2, dcOne.SyncMetrics dfEmpty (GoVal.obj podNoUID) = Except.ok dc2) := by
  refine ⟨rfl, ?_, rfl, ?_, ?_⟩
  · exact (C3_writePath_absorbs_store_errors dcOne podNoUID mdOne
      StoreErr.identityResolutionError).1 rfl
  · exact (C3_writePath_absorbs_store_errors dcOne podNoUID mdOne
      StoreErr.identityResolutionError).2.1 rfl
  · exact (C3_writePath_absorbs_store_errors dcOne podNoUID mdOne
      StoreErr.identityResolutionError).2.2 dfEmpty

/-- C4: SyncMetrics dispatches on the dynamic type alone: for each of the
fourteen recognised kinds, for every family of derivation functions, every
collector state and every object payload, the result is the candidate-update
step applied to the records of exactly the matching per-kind derivation
function, translated through ocsToMetrics; the two CronJob schema versions
are distinct cases with distinct derivation functions. -/
theorem C4_syncMetrics_dispatch (df : DerivFuns) (dc : DataCollector) (r : KResource) :
    dc.SyncMetrics df (GoVal.obj (KObj.pod r)) =
      syncStep dc (GoVal.obj (KObj.pod r)) (ocsToMetrics df.ocToMetrics (df.getMetricsForPod r))
    ∧ dc.SyncMetrics df (GoVal.obj (KObj.node r)) =
      syncStep dc (GoVal.obj (KObj.node r)) (ocsToMetrics df.ocToMetrics
        (df.getMetricsForNode r dc.nodeConditionsToReport dc.allocatableTypesToReport))
    ∧ dc.SyncMetrics df (GoVal.obj (KObj.ns r)) =
      syncStep dc (GoVal.obj (KObj.ns r))
        (ocsToMetrics df.ocToMetrics (df.getMetricsForNamespace r))
    ∧ dc.SyncMetrics df (GoVal.obj (KObj.replicationController r)) =
      syncStep dc (GoVal.obj (KObj.replicationController r))
        (ocsToMetrics df.ocToMetrics (df.getMetricsForReplicationController r))
    ∧ dc.SyncMetrics df (GoVal.obj (KObj.resourceQuota r)) =
      syncStep dc (GoVal.obj (KObj.resourceQuota r))
        (ocsToMetrics df.ocToMetrics (df.getMetricsForResourceQuota r))
    ∧ dc.SyncMetrics df (GoVal.obj (KObj.deployment r)) =
      syncStep dc (GoVal.obj (KObj.deployment r))
        (ocsToMetrics df.ocToMetrics (df.getMetricsForDeployment r))
    ∧ dc.SyncMetrics df (GoVal.obj (KObj.replicaSet r)) =
      syncStep dc (GoVal.obj (KObj.replicaSet r))
        (ocsToMetrics df.ocToMetrics (df.getMetricsForReplicaSet r))
    ∧ dc.SyncMetrics df (GoVal.obj (KObj.daemonSet r)) =
      syncStep dc (GoVal.obj (KObj.daemonSet r))
        (ocsToMetrics df.ocToMetrics (df.getMetricsForDaemonSet r))
    ∧ dc.SyncMetrics df (GoVal.obj (KObj.statefulSet r)) =
      syncStep dc (GoVal.obj (KObj.statefulSet r))
        (ocsToMetrics df.ocToMetrics (df.getMetricsForStatefulSet r))
    ∧ dc.SyncMetrics df (GoVal.obj (KObj.job r)) =
      syncStep dc (GoVal.obj (KObj.job r))
        (ocsToMetrics df.ocToMetrics (df.getMetricsForJob r))
    ∧ dc.SyncMetrics df (GoVal.obj (KObj.cronJob r)) =
      syncStep dc (GoVal.obj (KObj.cronJob r))
        (ocsToMetrics df.ocToMetrics (df.getMetricsForCronJob r))
    ∧ dc.SyncMetrics df (GoVal.obj (KObj.cronJobBeta r)) =
      syncStep dc (GoVal.obj (KObj.cronJobBeta r))
        (ocsToMetrics df.ocToMetrics (df.getMetricsForCronJobBeta r))
    ∧ dc.SyncMetrics df (GoVal.obj (KObj.horizontalPodAutoscaler r)) =
      syncStep dc (GoVal.obj (KObj.horizontalPodAutoscaler r))
        (ocsToMetrics df.ocToMetrics (df.getMetricsForHPA r))
    ∧ dc.SyncMetrics df (GoVal.obj (KObj.clusterResourceQuota r)) =
      syncStep dc (GoVal.obj (KObj.clusterResourceQuota r))
        (ocsToMetrics df.ocToMetrics (df.getMetricsForClusterResourceQuota r)) :=
  ⟨rfl, rfl, rfl, rfl, rfl, rfl, rfl, rfl, rfl, rfl, rfl, rfl, rfl, rfl⟩

/-- A namespace object value with a resolvable identity. -/
def nsVal : GoVal := GoVal.obj (KObj.ns ⟨some "u-ns", 0⟩)

/-- C5 counterexample: a Namespace object is recognised by the SyncMetrics
type switch and is neither a ResourceQuota nor a ClusterResourceQuota, yet
SyncMetadata does not dispatch on it: even with every metadata derivation
returning a one-entry marker map, the result for the Namespace is the empty
allocated map (while for a pod the marker map does come through), so the set
of kinds excluded from SyncMetadata is strictly larger than the pair claimed. -/
theorem C5_namespace_excluded_counterexample :
    isRecognizedMetricsKind nsVal = true ∧
    isResourceQuotaKind nsVal = false ∧
    isClusterResourceQuotaKind nsVal = false ∧
    isRecognizedMetadataKind nsVal = false ∧
    (dcOne.SyncMetadata mfMark nsVal).2 = GoMap.alloc [] ∧
    (dcOne.SyncMetadata mfMark (GoVal.obj podU1)).2 = GoMap.alloc [("marker", ⟨1⟩)] :=
  ⟨rfl, rfl, rfl, rfl, rfl, rfl⟩

/-- C5 (amended): the kinds recognised by SyncMetadata are exactly those
recognised by SyncMetrics minus Namespace, ResourceQuota and
ClusterResourceQuota; every value of unrecognised kind yields the allocated
empty mapping with the collector unchanged; and each recognised kind yields
exactly the matching metadata derivation result. -/
theorem C5_syncMetadata_kind_set (obj : GoVal) :
    (isRecognizedMetadataKind obj =
      (isRecognizedMetricsKind obj && !isNamespaceKind obj && !isResourceQuotaKind obj
        && !isClusterResourceQuotaKind obj))
    ∧ (∀ (mf : MetaDerivFuns) (dc : DataCollector), isRecognizedMetadataKind obj = false →
        dc.SyncMetadata mf obj = (dc, GoMap.alloc []))
    ∧ (∀ (mf : MetaDerivFuns) (dc : DataCollector) (r : KResource),
        dc.SyncMetadata mf (GoVal.obj (KObj.pod r)) = (dc, mf.getMetadataForPod r dc.mdStore)
        ∧ dc.SyncMetadata mf (GoVal.obj (KObj.node r)) = (dc, mf.getMetadataForNode r)
        ∧ dc.SyncMetadata mf (GoVal.obj (KObj.replicationController r)) =
            (dc, mf.getMetadataForReplicationController r)
        ∧ dc.SyncMetadata mf (GoVal.obj (KObj.deployment r)) = (dc, mf.getMetadataForDeployment r)
        ∧ dc.SyncMetadata mf (GoVal.obj (KObj.replicaSet r)) = (dc, mf.getMetadataForReplicaSet r)
        ∧ dc.SyncMetadata mf (GoVal.obj (KObj.daemonSet r)) = (dc, mf.getMetadataForDaemonSet r)
        ∧ dc.SyncMetadata mf (GoVal.obj (KObj.statefulSet r)) = (dc, mf.getMetadataForStatefulSet r)
        ∧ dc.SyncMetadata mf (GoVal.obj (KObj.job r)) = (dc, mf.getMetadataForJob r)
        ∧ dc.SyncMetadata mf (GoVal.obj (KObj.cronJob r)) = (dc, mf.getMetadataForCronJob r)
        ∧ dc.SyncMetadata mf (GoVal.obj (KObj.cronJobBeta r)) = (dc, mf.getMetadataForCronJobBeta r)
        ∧ dc.SyncMetadata mf (GoVal.obj (KObj.horizontalPodAutoscaler r)) =
            (dc, mf.getMetadataForHPA r)) := by
  refine ⟨?_, ?_, ?_⟩
  · cases obj with
    | obj o => cases o <;> rfl
    | nonObject n c => rfl
    | nilVal => rfl
  · intro mf dc h
    exact syncMetadata_default mf dc obj h
  · intro mf dc r
    exact ⟨rfl, rfl, rfl, rfl, rfl, rfl, rfl, rfl, rfl, rfl, rfl⟩

/-- Concrete instance of the amended C5 at the Namespace object: excluded
from metadata dispatch, it yields the allocated empty mapping. -/
theorem C5_syncMetadata_kind_set_witness :
    isRecognizedMetadataKind nsVal = false ∧
    dcOne.SyncMetadata mfMark nsVal = (dcOne, GoMap.alloc []) :=
  ⟨rfl, (C5_syncMetadata_kind_set nsVal).2.1 mfMark dcOne rfl⟩

/-- C6 counterexample: an interface value that does not implement
runtime.Object, or the nil interface value, passed to the public write entry
points hits the unchecked type assertion and panics instead of being logged
and skipped. -/
theorem C6_non_object_panics_counterexample :
    dcOne.RemoveFromMetricsStore (GoVal.nonObject "string" 7) =
      Except.error GoPanic.interfaceConversion ∧
    dcOne.UpdateMetricsStore (GoVal.nonObject "string" 7) mdOne =
      Except.error GoPanic.interfaceConversion ∧
    dcOne.RemoveFromMetricsStore GoVal.nilVal = Except.error GoPanic.interfaceConversion :=
  ⟨rfl, rfl, rfl⟩

/-- C6 (amended): for every value that does implement runtime.Object the
write entry points never panic: they return normally, and when the identity
cannot be resolved the write is skipped with the store left unchanged and a
log entry carrying the reflected kind appended; a value that does not
implement runtime.Object, by contrast, panics at the type assertion. -/
theorem C6_no_panic_on_runtime_objects (dc : DataCollector) (o : KObj) (md : PMetrics) :
    (∃ dcA, dc.RemoveFromMetricsStore (GoVal.obj o) = Except.ok dcA) ∧
    (∃ dcA, dc.UpdateMetricsStore (GoVal.obj o) md = Except.ok dcA) ∧
    (resolveIdentity o = Except.error StoreErr.identityResolutionError →
      dc.RemoveFromMetricsStore (GoVal.obj o) = Except.ok
        (dc.withLogs (dc.logs ++ [⟨"failed to remove from metric cache", o.typeName,
          StoreErr.identityResolutionError⟩])) ∧
      dc.UpdateMetricsStore (GoVal.obj o) md = Except.ok
        (dc.withLogs (dc.logs ++ [⟨"failed to update metric cache", o.typeName,
          StoreErr.identityResolutionError⟩]))) := by
  refine ⟨?_, ?_, ?_⟩
  · simp only [DataCollector.RemoveFromMetricsStore, asRuntimeObject]
    cases hr : dc.store.remove o with
    | error e => exact ⟨_, rfl⟩
    | ok ms => exact ⟨_, rfl⟩
  · exact updateMetricsStore_obj_isOk dc o md
  · intro h
    have hrem : dc.store.remove o = Except.error StoreErr.identityResolutionError := by
      unfold metricsStore.remove
      rw [h]
    have hupd : dc.store.update o md = Except.error StoreErr.identityResolutionError := by
      unfold metricsStore.update
      rw [h]
    constructor
    · simp only [DataCollector.RemoveFromMetricsStore, asRuntimeObject, hrem]
    · simp only [DataCollector.UpdateMetricsStore, asRuntimeObject, hupd]

/-- Concrete instance of the amended C6 at a pod without resolvable
identity: no panic, the write is skipped and logged. -/
theorem C6_no_panic_on_runtime_objects_witness :
    (∃ dcA, dcOne.RemoveFromMetricsStore (GoVal.obj podNoUID) = Except.ok dcA) ∧
    resolveIdentity podNoUID = Except.error StoreErr.identityResolutionError ∧
    dcOne.RemoveFromMetricsStore (GoVal.obj podNoUID) = Except.ok
      (dcOne.withLogs (dcOne.logs ++ [⟨"failed to remove from metric cache", podNoUID.typeName,
        StoreErr.identityResolutionError⟩])) :=
  ⟨(C6_no_panic_on_runtime_objects dcOne podNoUID mdOne).1, rfl,
    ((C6_no_panic_on_runtime_objects dcOne podNoUID mdOne).2.2 rfl).1⟩

/-- C7: SyncMetadata only computes and returns the metadata mapping: for
every family of metadata derivation functions and every input value, the
collector state after the call, including the metrics store and the
registered caches of the metadata store, is exactly the state before. -/
theorem C7_syncMetadata_no_side_effect
    (mf : MetaDerivFuns) (dc : DataCollector) (obj : GoVal) :
    (dc.SyncMetadata mf obj).1 = dc := by
  cases obj with
  | obj o => cases o <;> rfl
  | nonObject n c => rfl
  | nilVal => rfl

/-- C8: CollectMetricData is a pure passthrough read: it returns the metrics
store entries stamped with the supplied collection timestamp, leaves the
collector untouched, and on a freshly constructed collector the snapshot
carries no entries. -/
theorem C8_collectMetricData_passthrough
    (dc : DataCollector) (t : Nat) (ncr atr : List String) :
    (dc.CollectMetricData t).1 = dc ∧
    (dc.CollectMetricData t).2 = Snapshot.mk t dc.store.metricsCache ∧
    ((NewDataCollector ncr atr).CollectMetricData t).2 = Snapshot.mk t [] :=
  ⟨rfl, rfl, rfl⟩

/-- C9: for an object with resolvable identity, removal succeeds silently
and that identity is absent from every subsequent snapshot, whatever was
stored for it before; when the identity was already absent the removal is a
no-op that returns no error and changes nothing. -/
theorem C9_remove_makes_absent
    (dc : DataCollector) (o : KObj) (u : String) (t : Nat)
    (h : resolveIdentity o = Except.ok u) :
    ∃ dcA, dc.RemoveFromMetricsStore (GoVal.obj o) = Except.ok dcA ∧
      dcA.logs = dc.logs ∧
      lookupKey u ((dcA.CollectMetricData t).2.entries) = none ∧
      (lookupKey u dc.store.metricsCache = none → dcA = dc) := by
  refine ⟨dc.withStore ⟨removeKey u dc.store.metricsCache⟩, ?_, rfl, ?_, ?_⟩
  · simp only [DataCollector.RemoveFromMetricsStore, asRuntimeObject, metricsStore.remove, h]
  · show lookupKey u (removeKey u dc.store.metricsCache) = none
    exact lookupKey_removeKey _ _
  · intro habs
    have hid : removeKey u dc.store.metricsCache = dc.store.metricsCache :=
      removeKey_absent _ _ habs
    rw [hid]
    cases dc with
    | mk logs store mdS ncr atr => cases store with | mk cache => rfl

/-- Concrete instance of C9 at a pod whose identity holds a cached entry:
after removal the identity is gone from the snapshot and nothing is logged. -/
theorem C9_remove_makes_absent_witness :
    resolveIdentity podU1 = Except.ok "u1" ∧
    (∃ dcA, dcOne.RemoveFromMetricsStore (GoVal.obj podU1) = Except.ok dcA ∧
      dcA.logs = dcOne.logs ∧
      lookupKey "u1" ((dcA.CollectMetricData 5).2.entries) = none ∧
      (lookupKey "u1" dcOne.store.metricsCache = none → dcA = dcOne)) :=
  ⟨rfl, C9_remove_makes_absent dcOne podU1 "u1" 5 rfl⟩

/-- The collaborator contract that each per-kind metadata derivation returns
an allocated (non-nil) map on every input. -/
def MetaDerivFuns.allocated (mf : MetaDerivFuns) : Prop :=
  (∀ r m, mf.getMetadataForPod r m ≠ GoMap.nilMap) ∧
  (∀ r, mf.getMetadataForNode r ≠ GoMap.nilMap) ∧
  (∀ r, mf.getMetadataForReplicationController r ≠ GoMap.nilMap) ∧
  (∀ r, mf.getMetadataForDeployment r ≠ GoMap.nilMap) ∧
  (∀ r, mf.getMetadataForReplicaSet r ≠ GoMap.nilMap) ∧
  (∀ r, mf.getMetadataForDaemonSet r ≠ GoMap.nilMap) ∧
  (∀ r, mf.getMetadataForStatefulSet r ≠ GoMap.nilMap) ∧
  (∀ r, mf.getMetadataForJob r ≠ GoMap.nilMap) ∧
  (∀ r, mf.getMetadataForCronJob r ≠ GoMap.nilMap) ∧
  (∀ r, mf.getMetadataForCronJobBeta r ≠ GoMap.nilMap) ∧
  (∀ r, mf.getMetadataForHPA r ≠ GoMap.nilMap)

/-- C10: SyncMetadata never returns the nil map: the default case returns
the allocated empty map of its own initialisation unconditionally, and each
recognised case passes through its derivation result, non-nil under the
collaborator contract that derivations return allocated maps. -/
theorem C10_syncMetadata_non_nil (mf : MetaDerivFuns) (h : mf.allocated)
    (dc : DataCollector) (obj : GoVal) :
    (dc.SyncMetadata mf obj).2 ≠ GoMap.nilMap := by
  obtain ⟨h1, h2, h3, h4, h5, h6, h7, h8, h9, h10, h11⟩ := h
  cases obj with
  | nonObject n c => simp [DataCollector.SyncMetadata]
  | nilVal => simp [DataCollector.SyncMetadata]
  | obj o =>
      cases o with
      | pod r => exact h1 r dc.mdStore
      | node r => exact h2 r
      | ns r => simp [DataCollector.SyncMetadata]
      | replicationController r => exact h3 r
      | resourceQuota r => simp [DataCollector.SyncMetadata]
      | deployment r => exact h4 r
      | replicaSet r => exact h5 r
      | daemonSet r => exact h6 r
      | statefulSet r => exact h7 r
      | job r => exact h8 r
      | cronJob r => exact h9 r
      | cronJobBeta r => exact h10 r
      | horizontalPodAutoscaler r => exact h11 r
      | clusterResourceQuota r => simp [DataCollector.SyncMetadata]
      | other n r => simp [DataCollector.SyncMetadata]

/-- Concrete instance of C10 with metadata derivations that return allocated
empty maps. -/
theorem C10_syncMetadata_non_nil_witness :
    mfAlloc.allocated ∧ (dcOne.SyncMetadata mfAlloc (GoVal.obj podU1)).2 ≠ GoMap.nilMap := by
  have h : mfAlloc.allocated := by
    refine ⟨?_, ?_, ?_, ?_, ?_, ?_, ?_, ?_, ?_, ?_, ?_⟩ <;> intros <;>
      simp [mfAlloc, emptyAllocOf]
  exact ⟨h, C10_syncMetadata_non_nil mfAlloc h dcOne (GoVal.obj podU1)⟩
